import Mathlib

/-!
Verification of the propertyestimator client (`propertyestimator/client.py`).

The development shallowly embeds the client-side logic of `client.py`:
the estimation-option assembly pass of `PropertyEstimatorClient.request_estimate`,
the request handle (`PropertyEstimatorClient.Request`) together with its JSON
serialization, and the retrieval paths (`_retrieve_estimate`,
`_send_calculations_to_server`, `_send_query_server`).

Python dictionaries are embedded as insertion-ordered association lists
(`alookup` / `ainsert` mirror `d[k]` reads and `d[k] = v` writes).  External
collaborators (the property-type registry, each property type's
`get_default_workflow_schema` provider and the `validate_interfaces` check) are
parameters of the embedded functions, following their interface description in
the specification.  Network transport is embedded as an explicit outcome value
per round trip: a connection that raises `StreamClosedError`, or a response
frame with a payload length and payload.
-/

/-! ## Python dictionaries as insertion-ordered association lists -/

/-- Function `alookup d k` embeds the Python dictionary read `d[k]` / `k in d`:
`some v` when the key is present, `none` otherwise. -/
def alookup {α : Type} : List (String × α) → String → Option α
  | [], _ => none
  | (k, v) :: rest, key => if k = key then some v else alookup rest key

/-- Function `ainsert d k v` embeds the Python dictionary write `d[k] = v`: an existing
binding is replaced in place, a new key is appended at the end (Python dicts
preserve insertion order). -/
def ainsert {α : Type} : List (String × α) → String → α → List (String × α)
  | [], key, v => [(key, v)]
  | (k, w) :: rest, key, v =>
      if k = key then (key, v) :: rest else (k, w) :: ainsert rest key v

theorem alookup_ainsert_self {α : Type} (d : List (String × α)) (k : String) (v : α) :
    alookup (ainsert d k v) k = some v := by
  induction d with
  | nil => simp [ainsert, alookup]
  | cons hd tl ih =>
    obtain ⟨k0, v0⟩ := hd
    by_cases h : k0 = k
    · simp [ainsert, alookup, h]
    · simp [ainsert, alookup, h, ih]

theorem alookup_ainsert_ne {α : Type} (d : List (String × α)) (k k0 : String) (v : α)
    (h : k0 ≠ k) : alookup (ainsert d k v) k0 = alookup d k0 := by
  induction d with
  | nil => simp [ainsert, alookup, Ne.symm h]
  | cons hd tl ih =>
    obtain ⟨k1, v1⟩ := hd
    by_cases h1 : k1 = k
    · subst h1
      simp [ainsert, alookup, Ne.symm h]
    · by_cases h2 : k1 = k0
      · subst h2
        simp [ainsert, alookup, h1]
      · simp [ainsert, alookup, h1, h2, ih]

theorem ainsert_ainsert_self {α : Type} (d : List (String × α)) (k : String) (v v2 : α) :
    ainsert (ainsert d k v) k v2 = ainsert d k v2 := by
  induction d with
  | nil => simp [ainsert]
  | cons hd tl ih =>
    obtain ⟨k0, v0⟩ := hd
    by_cases h : k0 = k
    · simp [ainsert, h]
    · simp [ainsert, h, ih]

/-! ## Workflow schemas and estimation options (`PropertyEstimatorOptions`) -/

/-- One protocol step of a workflow (`protocol_schema` in the source).  Only the
boolean-valued entries of its `inputs` dictionary matter to the client core; the
merge flag is the entry under the reserved key `".allow_merging"`. -/
structure ProtocolSchema where
  inputs : List (String × Bool)
deriving DecidableEq, Repr

/-- A workflow configuration (`WorkflowSchema` in the source): the dictionary of
protocol steps, keyed by protocol schema name. -/
structure WorkflowSchema where
  protocols : List (String × ProtocolSchema)
deriving DecidableEq, Repr

/-- Inner level of `workflow_schemas`: calculation-layer name to
workflow-configuration-or-`None` (the source stores `None` for an absent
default, so the value type is an `Option`). -/
abbrev LayerMap := List (String × Option WorkflowSchema)

/-- Outer level of `workflow_schemas`: property-type name to per-layer map. -/
abbrev TypeMap := List (String × LayerMap)

/-- Reads `workflow_schemas[t][l]`: `some (some w)` for a stored configuration,
`some none` for a stored `None`, `none` when no entry exists. -/
def alookup2 (tm : TypeMap) (t l : String) : Option (Option WorkflowSchema) :=
  alookup ((alookup tm t).getD []) l

/-- Name of the imported `SurrogateLayer` class (`SurrogateLayer.__name__`). -/
def SurrogateLayer_name : String := "SurrogateLayer"

/-- Name of the imported `ReweightingLayer` class (`ReweightingLayer.__name__`). -/
def ReweightingLayer_name : String := "ReweightingLayer"

/-- Name of the imported `SimulationLayer` class (`SimulationLayer.__name__`). -/
def SimulationLayer_name : String := "SimulationLayer"

/-- The state of a `PropertyEstimatorOptions` object (client.py lines 20-112). -/
structure PropertyEstimatorOptions where
  allowed_calculation_layers : List String
  workflow_schemas : TypeMap
  relative_uncertainty_tolerance : Float
  allow_protocol_merging : Bool
  gradient_properties : List String

/-- Constructor `PropertyEstimatorOptions.__init__` (client.py lines 54-88): when
`allowed_calculation_layers` is `None` it is replaced by the fixed three-layer
list of registered layer class names; `workflow_schemas` and
`gradient_properties` start empty. -/
def PropertyEstimatorOptions.init (allowed_calculation_layers : Option (List String))
    (relative_uncertainty_tolerance : Float) (allow_protocol_merging : Bool) :
    PropertyEstimatorOptions :=
  { allowed_calculation_layers :=
      match allowed_calculation_layers with
      | none => [SurrogateLayer_name, ReweightingLayer_name, SimulationLayer_name]
      | some layers => layers
    workflow_schemas := []
    relative_uncertainty_tolerance := relative_uncertainty_tolerance
    allow_protocol_merging := allow_protocol_merging
    gradient_properties := [] }

/-! ## The option-assembly pass of `request_estimate` (client.py lines 515-562)

The pass iterates over the flattened property batch (here the list of
property-type names, one per physical property encountered) and, per type and
per allowed calculation layer, fills `options.workflow_schemas` with default
workflow configurations.  External collaborators are parameters:

* `registered : String → Bool` embeds membership in `registered_properties`;
* `provider : String → String → Option WorkflowSchema` embeds
  `registered_properties[type_name]().get_default_workflow_schema(layer)`.
  Modelled from the spec: the provider itself lives outside `client.py`;
  section 6 specifies it as `default_workflow(layer_name) -> workflow_config |
  absent`, so each call yields a (fresh) configuration value;
* `valid : WorkflowSchema → Bool` embeds `workflow.validate_interfaces()`
  (which raises on an invalid workflow; a raise is an `Except.error`).
-/

/-- Lines 540-544: store the layer's default workflow into the per-type map
when the layer has no entry yet or its entry is `None`. -/
def store_default (provider : String → Option WorkflowSchema) (lm : LayerMap)
    (calculation_layer : String) : LayerMap :=
  match alookup lm calculation_layer with
  | some (some _) => lm
  | _ => ainsert lm calculation_layer (provider calculation_layer)

/-- Lines 553-558: iterate over the workflow's protocol steps and, when
`allow_protocol_merging` is false, write `False` under the reserved
`".allow_merging"` input key of each step. -/
def applyMergeOverride (allow_protocol_merging : Bool) (w : WorkflowSchema) :
    WorkflowSchema :=
  { protocols := w.protocols.map fun p =>
      if allow_protocol_merging then p
      else (p.1, { inputs := ainsert p.2.inputs ".allow_merging" false }) }

/-- Body of the inner `for calculation_layer in options.allowed_calculation_layers`
loop (lines 535-558), for one layer of one property type. -/
def assembleStep (provider : String → Option WorkflowSchema)
    (valid : WorkflowSchema → Bool) (allow_protocol_merging : Bool)
    (tm : TypeMap) (type_name calculation_layer : String) : Except String TypeMap :=
  -- lines 537-538: create an empty per-type entry when none exists
  let tm2 := if (alookup tm type_name).isNone then ainsert tm type_name [] else tm
  -- lines 540-544: store the default when the layer entry is missing or None
  let lm2 := store_default provider ((alookup tm2 type_name).getD []) calculation_layer
  let tm3 := ainsert tm2 type_name lm2
  -- line 546: a second provider call fetches a fresh copy of the default
  match provider calculation_layer with
  | none => .ok tm3            -- lines 548-549: continue
  | some workflow =>
      if valid workflow then   -- line 551: validate_interfaces (raises on failure)
        -- lines 553-558: the merge override is applied to the fresh copy bound
        -- to the local variable `workflow`, which is then discarded
        let _workflow := applyMergeOverride allow_protocol_merging workflow
        .ok tm3
      else .error "validate_interfaces"

/-- The inner layer loop of the assembly pass, over one property type. -/
def assembleLayers (provider : String → Option WorkflowSchema)
    (valid : WorkflowSchema → Bool) (allow_protocol_merging : Bool)
    (type_name : String) (tm : TypeMap) : List String → Except String TypeMap
  | [] => .ok tm
  | calculation_layer :: rest =>
      match assembleStep provider valid allow_protocol_merging tm type_name calculation_layer with
      | .error e => .error e
      | .ok tm2 => assembleLayers provider valid allow_protocol_merging type_name tm2 rest

/-- The outer loop of the assembly pass (lines 517-558) over the flattened
batch of property-type names: raise on an unsupported type (lines 525-528),
skip a type that already has a `workflow_schemas` entry (lines 530-531),
otherwise run the layer loop for it. -/
def assembleBatch (registered : String → Bool)
    (provider : String → String → Option WorkflowSchema)
    (valid : WorkflowSchema → Bool) (allow_protocol_merging : Bool)
    (allowed_calculation_layers : List String) (tm : TypeMap) :
    List String → Except String TypeMap
  | [] => .ok tm
  | type_name :: rest =>
      if registered type_name = false then
        .error ("The property estimator does not support " ++ type_name ++ " properties.")
      else if (alookup tm type_name).isSome then
        assembleBatch registered provider valid allow_protocol_merging
          allowed_calculation_layers tm rest
      else
        match assembleLayers (provider type_name) valid allow_protocol_merging
            type_name tm allowed_calculation_layers with
        | .error e => .error e
        | .ok tm2 =>
            assembleBatch registered provider valid allow_protocol_merging
              allowed_calculation_layers tm2 rest

/-- The whole assembly pass of `request_estimate` at the options level: run the
batch loop on `options.workflow_schemas` with the options object's own
`allowed_calculation_layers` and `allow_protocol_merging`, and write the
resulting map back into the options object. -/
def request_estimate_assemble (registered : String → Bool)
    (provider : String → String → Option WorkflowSchema)
    (valid : WorkflowSchema → Bool) (options : PropertyEstimatorOptions)
    (batch : List String) : Except String PropertyEstimatorOptions :=
  match assembleBatch registered provider valid options.allow_protocol_merging
      options.allowed_calculation_layers options.workflow_schemas batch with
  | .error e => .error e
  | .ok tm => .ok { options with workflow_schemas := tm }

/-! ## Lemmas about the assembly pass -/

/-- Invariant of a per-type layer map during assembly of a freshly seen type:
every stored entry is the provider's default for its layer. -/
def innerInv (provider : String → Option WorkflowSchema) (m : LayerMap) : Prop :=
  ∀ l, alookup m l = none ∨ alookup m l = some (provider l)

theorem store_default_self (provider : String → Option WorkflowSchema) (m : LayerMap)
    (l : String) (hm : innerInv provider m) :
    alookup (store_default provider m l) l = some (provider l) := by
  cases h : alookup m l with
  | none => simp [store_default, h, alookup_ainsert_self]
  | some w =>
    cases w with
    | none => simp [store_default, h, alookup_ainsert_self]
    | some wf =>
      rcases hm l with h0 | h0
      · rw [h] at h0; cases h0
      · rw [h] at h0
        have hred : alookup (store_default provider m l) l = alookup m l := by
          simp [store_default, h]
        rw [hred, h]
        exact h0

theorem store_default_ne (provider : String → Option WorkflowSchema) (m : LayerMap)
    (l l0 : String) (h : l0 ≠ l) :
    alookup (store_default provider m l) l0 = alookup m l0 := by
  cases halt : alookup m l with
  | none => simp [store_default, halt, alookup_ainsert_ne _ _ _ _ h]
  | some w =>
    cases w with
    | none => simp [store_default, halt, alookup_ainsert_ne _ _ _ _ h]
    | some wf => simp [store_default, halt]

theorem store_default_inv (provider : String → Option WorkflowSchema) (m : LayerMap)
    (l : String) (hm : innerInv provider m) :
    innerInv provider (store_default provider m l) := by
  intro l0
  by_cases h : l0 = l
  · subst h
    right
    exact store_default_self provider m l0 hm
  · rw [store_default_ne provider m l l0 h]
    exact hm l0

/-- On success, one layer iteration replaces the per-type entry by
`store_default` of its previous value (the merge override and validation touch
only the fresh provider copy, never the stored map). -/
theorem assembleStep_ok_eq (provider : String → Option WorkflowSchema)
    (valid : WorkflowSchema → Bool) (allow : Bool) (tm : TypeMap) (t l : String)
    (tm1 : TypeMap) (h : assembleStep provider valid allow tm t l = .ok tm1) :
    tm1 = ainsert tm t (store_default provider ((alookup tm t).getD []) l) := by
  unfold assembleStep at h
  cases htm : alookup tm t with
  | none =>
    simp only [htm, Option.isNone_none, if_pos, Option.getD] at h
    rw [alookup_ainsert_self] at h
    rw [ainsert_ainsert_self] at h
    cases hp : provider l with
    | none =>
      simp only [hp, Except.ok.injEq] at h
      simp [htm, h.symm]
    | some w =>
      cases hv : valid w with
      | false => simp [hp, hv] at h
      | true =>
        simp only [hp, hv, if_true, Except.ok.injEq] at h
        simp [htm, h.symm]
  | some m =>
    simp only [htm, Option.isNone_some, Bool.false_eq_true, if_false, Option.getD] at h
    cases hp : provider l with
    | none =>
      simp only [hp, Except.ok.injEq] at h
      simp [htm, h.symm]
    | some w =>
      cases hv : valid w with
      | false => simp [hp, hv] at h
      | true =>
        simp only [hp, hv, if_true, Except.ok.injEq] at h
        simp [htm, h.symm]

theorem assembleStep_ok_lookup_self (provider : String → Option WorkflowSchema)
    (valid : WorkflowSchema → Bool) (allow : Bool) (tm : TypeMap) (t l : String)
    (tm1 : TypeMap) (h : assembleStep provider valid allow tm t l = .ok tm1) :
    alookup tm1 t = some (store_default provider ((alookup tm t).getD []) l) := by
  rw [assembleStep_ok_eq provider valid allow tm t l tm1 h]
  exact alookup_ainsert_self _ _ _

theorem assembleStep_ok_lookup_ne (provider : String → Option WorkflowSchema)
    (valid : WorkflowSchema → Bool) (allow : Bool) (tm : TypeMap) (t l t0 : String)
    (tm1 : TypeMap) (h0 : t0 ≠ t) (h : assembleStep provider valid allow tm t l = .ok tm1) :
    alookup tm1 t0 = alookup tm t0 := by
  rw [assembleStep_ok_eq provider valid allow tm t l tm1 h]
  exact alookup_ainsert_ne _ _ _ _ h0

/-- The layer loop for one property type never touches any other type's entry. -/
theorem assembleLayers_lookup_ne (provider : String → Option WorkflowSchema)
    (valid : WorkflowSchema → Bool) (allow : Bool) (t t0 : String) (h0 : t0 ≠ t) :
    ∀ (layers : List String) (tm tm1 : TypeMap),
      assembleLayers provider valid allow t tm layers = .ok tm1 →
      alookup tm1 t0 = alookup tm t0 := by
  intro layers
  induction layers with
  | nil =>
    intro tm tm1 h
    simp only [assembleLayers, Except.ok.injEq] at h
    rw [← h]
  | cons l rest ih =>
    intro tm tm1 h
    simp only [assembleLayers] at h
    cases hs : assembleStep provider valid allow tm t l with
    | error e => rw [hs] at h; cases h
    | ok tm2 =>
      rw [hs] at h
      rw [ih tm2 tm1 h]
      exact assembleStep_ok_lookup_ne provider valid allow tm t l t0 tm2 h0 hs

/-- After a successful nonempty layer loop the property type has an entry. -/
theorem assembleLayers_isSome (provider : String → Option WorkflowSchema)
    (valid : WorkflowSchema → Bool) (allow : Bool) (t : String) :
    ∀ (layers : List String) (tm tm1 : TypeMap),
      assembleLayers provider valid allow t tm layers = .ok tm1 →
      (alookup tm t).isSome = true ∨ layers ≠ [] →
      (alookup tm1 t).isSome = true := by
  intro layers
  induction layers with
  | nil =>
    intro tm tm1 h hpre
    simp only [assembleLayers, Except.ok.injEq] at h
    rcases hpre with hpre | hpre
    · rw [← h]; exact hpre
    · exact absurd rfl hpre
  | cons l rest ih =>
    intro tm tm1 h _
    simp only [assembleLayers] at h
    cases hs : assembleStep provider valid allow tm t l with
    | error e => rw [hs] at h; cases h
    | ok tm2 =>
      rw [hs] at h
      refine ih tm2 tm1 h (Or.inl ?_)
      rw [assembleStep_ok_lookup_self provider valid allow tm t l tm2 hs]
      rfl

/-- Characterization of a successful layer loop: the per-type entry of the
final map holds, for each layer, the provider default if the layer was
processed, and is otherwise unchanged.  The hypothesis says every entry already
present for the type came from the provider. -/
theorem assembleLayers_char (provider : String → Option WorkflowSchema)
    (valid : WorkflowSchema → Bool) (allow : Bool) (t : String) :
    ∀ (layers : List String) (tm tm1 : TypeMap),
      innerInv provider ((alookup tm t).getD []) →
      assembleLayers provider valid allow t tm layers = .ok tm1 →
      ∀ l, alookup2 tm1 t l =
        if l ∈ layers then some (provider l) else alookup2 tm t l := by
  intro layers
  induction layers with
  | nil =>
    intro tm tm1 _ h l
    simp only [assembleLayers, Except.ok.injEq] at h
    simp [← h]
  | cons l0 rest ih =>
    intro tm tm1 hm h l
    simp only [assembleLayers] at h
    cases hs : assembleStep provider valid allow tm t l0 with
    | error e => rw [hs] at h; cases h
    | ok tm2 =>
      rw [hs] at h
      have hl2 : alookup tm2 t = some (store_default provider ((alookup tm t).getD []) l0) :=
        assembleStep_ok_lookup_self provider valid allow tm t l0 tm2 hs
      have hm2 : innerInv provider ((alookup tm2 t).getD []) := by
        rw [hl2]
        exact store_default_inv provider ((alookup tm t).getD []) l0 hm
      have hrec := ih tm2 tm1 hm2 h l
      by_cases hin : l ∈ rest
      · rw [hrec, if_pos hin, if_pos (List.mem_cons_of_mem l0 hin)]
      · rw [hrec, if_neg hin]
        by_cases heq : l = l0
        · subst heq
          have : alookup2 tm2 t l = some (provider l) := by
            unfold alookup2
            rw [hl2]
            exact store_default_self provider ((alookup tm t).getD []) l hm
          rw [this, if_pos (List.mem_cons_self l rest)]
        · have : alookup2 tm2 t l = alookup2 tm t l := by
            unfold alookup2
            rw [hl2]
            exact store_default_ne provider ((alookup tm t).getD []) l0 l heq
          rw [this, if_neg (by simp [heq, hin])]

/-- The batch loop never overwrites an entry that is already present: the
skip at lines 530-531 protects the processed type, and other types' layer
loops only touch their own keys. -/
theorem assembleBatch_preserves (registered : String → Bool)
    (provider : String → String → Option WorkflowSchema)
    (valid : WorkflowSchema → Bool) (allow : Bool) (layers : List String) :
    ∀ (batch : List String) (tm tm1 : TypeMap) (t0 : String) (e : LayerMap),
      alookup tm t0 = some e →
      assembleBatch registered provider valid allow layers tm batch = .ok tm1 →
      alookup tm1 t0 = some e := by
  intro batch
  induction batch with
  | nil =>
    intro tm tm1 t0 e he h
    simp only [assembleBatch, Except.ok.injEq] at h
    rw [← h]
    exact he
  | cons t rest ih =>
    intro tm tm1 t0 e he h
    simp only [assembleBatch] at h
    cases hr : registered t with
    | false => rw [hr] at h; simp at h
    | true =>
      rw [hr] at h
      simp only [Bool.true_eq_false, if_false] at h
      by_cases hp : (alookup tm t).isSome = true
      · rw [if_pos hp] at h
        exact ih tm tm1 t0 e he h
      · rw [if_neg hp] at h
        cases hl : assembleLayers (provider t) valid allow t tm layers with
        | error e2 => rw [hl] at h; cases h
        | ok tm2 =>
          rw [hl] at h
          have ht0 : t0 ≠ t := by
            intro hc
            subst hc
            rw [he] at hp
            exact hp rfl
          have := assembleLayers_lookup_ne (provider t) valid allow t t0 ht0 layers tm tm2 hl
          exact ih tm2 tm1 t0 e (this.trans he) h

/-- Running the batch loop a second time from a successful result is a no-op:
every type it would process is either already present (and skipped) or was a
no-op the first time because the layer list is empty. -/
theorem assembleBatch_idem (registered : String → Bool)
    (provider : String → String → Option WorkflowSchema)
    (valid : WorkflowSchema → Bool) (allow : Bool) (layers : List String) :
    ∀ (batch : List String) (tm tm1 : TypeMap),
      assembleBatch registered provider valid allow layers tm batch = .ok tm1 →
      assembleBatch registered provider valid allow layers tm1 batch = .ok tm1 := by
  intro batch
  induction batch with
  | nil =>
    intro tm tm1 h
    simp only [assembleBatch, Except.ok.injEq] at h
    simp [assembleBatch]
  | cons t rest ih =>
    intro tm tm1 h
    simp only [assembleBatch] at h ⊢
    cases hr : registered t with
    | false => rw [hr] at h; simp at h
    | true =>
      rw [hr] at h
      simp only [Bool.true_eq_false, if_false] at h ⊢
      by_cases hp : (alookup tm t).isSome = true
      · -- skipped the first time: present then, still present in tm1
        rw [if_pos hp] at h
        obtain ⟨e, he⟩ := Option.isSome_iff_exists.mp hp
        have hpres := assembleBatch_preserves registered provider valid allow layers
          rest tm tm1 t e he h
        rw [if_pos (by rw [hpres]; rfl)]
        exact ih tm tm1 h
      · rw [if_neg hp] at h
        cases hl : assembleLayers (provider t) valid allow t tm layers with
        | error e2 => rw [hl] at h; cases h
        | ok tm2 =>
          rw [hl] at h
          cases layers with
          | nil =>
            -- empty layer loop: tm2 = tm, and processing t again is again a no-op
            simp only [assembleLayers, Except.ok.injEq] at hl
            subst hl
            by_cases hp1 : (alookup tm1 t).isSome = true
            · rw [if_pos hp1]
              exact ih tm tm1 h
            · rw [if_neg hp1]
              simp only [assembleLayers]
              exact ih tm tm1 h
          | cons l0 lrest =>
            -- nonempty layer loop: t is present afterwards, so the second pass skips it
            have hsome : (alookup tm2 t).isSome = true :=
              assembleLayers_isSome (provider t) valid allow t (l0 :: lrest) tm tm2 hl
                (Or.inr (by simp))
            obtain ⟨e, he⟩ := Option.isSome_iff_exists.mp hsome
            have hpres := assembleBatch_preserves registered provider valid allow (l0 :: lrest)
              rest tm2 tm1 t e he h
            rw [if_pos (by rw [hpres]; rfl)]
            exact ih tm2 tm1 h

/-! ## Dynamic values, the request handle, and its JSON serialization

`PropertyEstimatorClient.Request` stores a request id that is either a string
(the decoded server response) or Python `None` (a failed submission), and its
constructor receives its second argument dynamically: `request_estimate` passes
a `PropertyEstimatorConnectionOptions` object, while `Request.from_json` passes
whatever string sat in the parsed dictionary.  `PyValue` embeds the dynamic
values that actually flow through these call sites. -/

/-- A dynamically typed Python value, as used around the `Request` handle. -/
inductive PyValue where
  /-- Python `None`. -/
  | pynone
  /-- a Python string -/
  | str (s : String)
  /-- a Python integer -/
  | int (n : Int)
  /-- a `PropertyEstimatorConnectionOptions` instance -/
  | connOpts (server_address : String) (server_port : Int)
  /-- any other object (e.g. a `PropertyEstimatorClient`) -/
  | obj
deriving DecidableEq, Repr

/-- Method call `value.encode()` (client.py line 744): succeeds on a string, raises
`AttributeError` on anything else (in particular on `None`). -/
def PyValue.encode_bytes : PyValue → Except String String
  | .str s => .ok s
  | _ => .error "AttributeError: encode"

/-- The `server_address` / `server_port` attribute reads performed by
`Request.__init__` (client.py lines 386-387): succeed only on a connection
options object, otherwise raise `AttributeError`. -/
def PyValue.connection_fields : PyValue → Except String (String × Int)
  | .connOpts a p => .ok (a, p)
  | _ => .error "AttributeError: server_address"

/-- Connection options `PropertyEstimatorConnectionOptions` (client.py lines 218-261). -/
structure PropertyEstimatorConnectionOptions where
  server_address : String
  server_port : Int
deriving DecidableEq, Repr

/-- The stored state of a `PropertyEstimatorClient.Request` handle
(client.py lines 384-387): `_id`, `_server_address`, `_server_port`. -/
structure Request where
  _id : PyValue
  _server_address : String
  _server_port : Int
deriving DecidableEq, Repr

/-- Constructor `Request.__init__` (client.py lines 372-397): reads `server_address` and
`server_port` off its second argument (raising `AttributeError` when that
argument is not a connection-options object, as happens on the `from_json`
path) and stores the id unchanged.  The `client` argument only selects whether
a fresh client is built; it does not affect the stored fields. -/
def Request.init (request_id : PyValue) (connection_options : PyValue)
    (client : PyValue) : Except String Request :=
  match connection_options.connection_fields with
  | .error e => .error e
  | .ok (addr, port) =>
      let _client := client
      .ok { _id := request_id, _server_address := addr, _server_port := port }

/-- Method `Request.json` (client.py lines 410-423): `json.dumps` of a dictionary
whose three fields are all populated from `self._id`.  The JSON text is
embedded as the dumped dictionary itself (string round-tripping through
`json.dumps`/`json.loads` is exact for a flat string-keyed dictionary). -/
def Request.json_dict (r : Request) : List (String × PyValue) :=
  [("id", r._id), ("server_address", r._id), ("server_port", r._id)]

/-- Method `Request.from_json` (client.py lines 425-443): `json.loads` the dictionary
and call the constructor with the three looked-up values in positional order
`(request_id, connection_options, client)`. -/
def Request.from_json_dict (json_dict : List (String × PyValue)) :
    Except String Request :=
  match alookup json_dict "id", alookup json_dict "server_address",
      alookup json_dict "server_port" with
  | some i, some a, some p => Request.init i a p
  | _, _, _ => .error "KeyError"

/-! The public accessor properties of `Request` (client.py lines 357-370) each
return themselves: `def id(self): return self.id` re-enters the same property
getter.  They are embedded with an explicit budget of evaluation steps (`fuel`);
one recursive unfolding consumes one step, and a computation that exhausts any
budget without producing a value yields `none`. -/

/-- The `Request.id` property (lines 357-360): `return self.id`. -/
def Request.id_get (r : Request) : Nat → Option PyValue
  | 0 => none
  | fuel + 1 => Request.id_get r fuel

/-- The `Request.server_address` property (lines 362-365):
`return self.server_address`. -/
def Request.server_address_get (r : Request) : Nat → Option String
  | 0 => none
  | fuel + 1 => Request.server_address_get r fuel

/-- The `Request.server_port` property (lines 367-370):
`return self.server_port`. -/
def Request.server_port_get (r : Request) : Nat → Option Int
  | 0 => none
  | fuel + 1 => Request.server_port_get r fuel

/-! ## Transport outcomes, submission and query round trips -/

/-- The observable outcome of one submission round trip
(`_send_calculations_to_server`, client.py lines 624-703): either the
connection fails somewhere with `StreamClosedError`, or a response frame
arrives whose decoded payload is the request id string. -/
inductive SubmissionOutcome where
  | connFailed
  | response (request_id : String)
deriving DecidableEq, Repr

/-- Coroutine `_send_calculations_to_server`: `request_id` starts as `None`; on a
successful round trip it becomes the decoded response payload; a
`StreamClosedError` is caught and logged, leaving `None` to be returned. -/
def send_calculations_to_server : SubmissionOutcome → PyValue
  | .connFailed => .pynone
  | .response request_id => .str request_id

/-- The tail of `request_estimate` (client.py lines 564-570): run the
submission coroutine, then unconditionally construct and return a `Request`
from whatever id it produced and the client's connection options. -/
def request_estimate_submit (outcome : SubmissionOutcome)
    (co : PropertyEstimatorConnectionOptions) : Except String Request :=
  Request.init (send_calculations_to_server outcome)
    (.connOpts co.server_address co.server_port) .obj

/-- The observable outcome of one query round trip: either the connection
fails with `StreamClosedError` (covering refusal at `connect`), or a response
frame arrives with the given payload length and payload. -/
inductive QueryOutcome where
  | connFailed
  | frame (length : Nat) (payload : String)
deriving DecidableEq, Repr

/-- Coroutine `_send_query_server` (client.py lines 705-779): encode the request id
(raising `AttributeError` on a non-string id), perform the round trip, and read
a payload only when the response header carries a positive length; a length-0
frame leaves `server_response = None`, and a `StreamClosedError` is caught,
also yielding `None`.  `parse` embeds `TypedBaseModel.parse_json`, applied only
to a non-`None` response. -/
def send_query_server {R : Type} (parse : String → R) (request_id : PyValue) :
    QueryOutcome → Except String (Option R)
  | .connFailed => .ok none
  | .frame length payload =>
      match request_id.encode_bytes with
      | .error e => .error e
      | .ok _ => .ok (if 0 < length then some (parse payload) else none)

/-- The sleep performed at the top of each synchronous polling iteration
(client.py lines 611-612): `polling_interval` seconds when positive, skipped
otherwise. -/
def sleepFor (polling_interval : Int) : Int :=
  if 0 < polling_interval then polling_interval else 0

/-- The synchronous polling loop of `_retrieve_estimate` (client.py lines
606-622), with the server embedded as the sequence of outcomes of successive
query round trips (`server n` answers the n-th query, counted from `start`)
and an explicit iteration budget.  Returns the number of query round trips
performed, the total seconds slept, and the outcome: `.ok (some r)` for the
first non-`None` response, `.ok none` when the budget ran out with the loop
still running, `.error` when a query raised. -/
def retrieve_sync_fuel {R : Type} (parse : String → R) (server : Nat → QueryOutcome)
    (request_id : PyValue) (polling_interval : Int) (start : Nat) :
    Nat → Nat × Int × Except String (Option R)
  | 0 => (0, 0, .ok none)
  | fuel + 1 =>
      let slept := sleepFor polling_interval
      match send_query_server parse request_id (server start) with
      | .error e => (1, slept, .error e)
      | .ok (some r) => (1, slept, .ok (some r))
      | .ok none =>
          let rest := retrieve_sync_fuel parse server request_id polling_interval (start + 1) fuel
          (rest.1 + 1, slept + rest.2.1, rest.2.2)

/-- Method `_retrieve_estimate` (client.py lines 572-622): the asynchronous path
(`synchronous is False`) performs exactly one query round trip and returns its
result; the synchronous path first checks `assert polling_interval >= 0` and
then runs the polling loop.  The first component counts query round trips
performed, the second the total seconds slept. -/
def retrieve_estimate {R : Type} (parse : String → R) (server : Nat → QueryOutcome)
    (request_id : PyValue) (synchronous : Bool) (polling_interval : Int)
    (fuel : Nat) : Nat × Int × Except String (Option R) :=
  if synchronous = false then
    (1, 0, send_query_server parse request_id (server 0))
  else if polling_interval < 0 then
    (0, 0, .error "AssertionError: polling_interval >= 0")
  else
    retrieve_sync_fuel parse server request_id polling_interval 0 fuel

/-! ## Helper lemmas about the retrieval loop -/

/-- Against a server that always answers with a length-0 payload frame, every
query of the synchronous loop observes the pending (`None`) result and the
loop is still running after any number of iterations. -/
theorem retrieve_sync_fuel_pending {R : Type} (parse : String → R) (request_id : String)
    (payload : String) :
    ∀ (fuel start : Nat),
      retrieve_sync_fuel parse (fun _ => QueryOutcome.frame 0 payload) (.str request_id)
        0 start fuel = (fuel, 0, .ok none) := by
  intro fuel
  induction fuel with
  | zero => intro start; rfl
  | succ n ih =>
    intro start
    simp [retrieve_sync_fuel, send_query_server, PyValue.encode_bytes, sleepFor, ih]

/-- The synchronous loop stops at the first non-`None` response: when the
first `k` queries (from `start`) answer pending and query `k` answers with a
result, the loop performs exactly `k + 1` round trips, sleeping once per
iteration. -/
theorem retrieve_sync_fuel_first_some {R : Type} (parse : String → R)
    (server : Nat → QueryOutcome) (request_id : PyValue) (polling_interval : Int)
    (r : R) :
    ∀ (k start fuel : Nat),
      (∀ i, i < k → send_query_server parse request_id (server (start + i)) = .ok none) →
      send_query_server parse request_id (server (start + k)) = .ok (some r) →
      k < fuel →
      retrieve_sync_fuel parse server request_id polling_interval start fuel =
        (k + 1, ((k : Int) + 1) * sleepFor polling_interval, .ok (some r)) := by
  intro k
  induction k with
  | zero =>
    intro start fuel hpend hresp hfuel
    cases fuel with
    | zero => omega
    | succ n =>
      rw [Nat.add_zero] at hresp
      simp [retrieve_sync_fuel, hresp]
  | succ k ih =>
    intro start fuel hpend hresp hfuel
    cases fuel with
    | zero => omega
    | succ n =>
      have h0 : send_query_server parse request_id (server start) = .ok none := by
        have := hpend 0 (by omega)
        simpa using this
      have hrec := ih (start + 1) n
        (fun i hi => by
          have := hpend (i + 1) (by omega)
          rw [show start + (i + 1) = start + 1 + i by omega] at this
          exact this)
        (by rw [show start + 1 + k = start + (k + 1) by omega]; exact hresp)
        (by omega)
      simp only [retrieve_sync_fuel, h0, hrec, Prod.mk.injEq]
      refine ⟨trivial, by push_cast; ring, trivial⟩

/-! ## Claims -/

/-- Claim C9: when `allowed_calculation_layers` is unset (`None`),
`PropertyEstimatorOptions.__init__` sets it to exactly the three-layer
sequence Surrogate, Reweighting, Simulation, in that order (via the layer
class names). -/
theorem C9_default_allowed_layers (relative_uncertainty_tolerance : Float)
    (allow_protocol_merging : Bool) :
    (PropertyEstimatorOptions.init none relative_uncertainty_tolerance
        allow_protocol_merging).allowed_calculation_layers =
      [SurrogateLayer_name, ReweightingLayer_name, SimulationLayer_name] ∧
    [SurrogateLayer_name, ReweightingLayer_name, SimulationLayer_name] =
      ["SurrogateLayer", "ReweightingLayer", "SimulationLayer"] :=
  ⟨rfl, rfl⟩

/-- Claim C10: the accessor properties `Request.id`, `Request.server_address`
and `Request.server_port` each return themselves, so their evaluation never
produces the stored `_id` / `_server_address` / `_server_port` value: for every
handle and every evaluation-step budget, the computation is still running
(unbounded self-recursion). -/
theorem C10_accessors_self_recursive (r : Request) (fuel : Nat) :
    r.id_get fuel = none ∧ r.server_address_get fuel = none ∧
      r.server_port_get fuel = none := by
  induction fuel with
  | zero => exact ⟨rfl, rfl, rfl⟩
  | succ n ih =>
    simpa [Request.id_get, Request.server_address_get, Request.server_port_get]
      using ih

/-- Claim C8: with `synchronous=true` and a negative `polling_interval`, the
retrieval fails fast on `assert polling_interval >= 0` before any network
round trip: zero queries are performed and the result is the assertion
error. -/
theorem C8_negative_interval_fails_fast {R : Type} (parse : String → R)
    (server : Nat → QueryOutcome) (request_id : PyValue) (polling_interval : Int)
    (fuel : Nat) (hneg : polling_interval < 0) :
    retrieve_estimate parse server request_id true polling_interval fuel =
      (0, 0, .error "AssertionError: polling_interval >= 0") := by
  simp [retrieve_estimate, hneg]

/-- Witness for C8 at `polling_interval = -1`. -/
theorem C8_witness :
    retrieve_estimate (fun s : String => s) (fun _ => QueryOutcome.connFailed)
        (.str "estimate-id") true (-1) 5 =
      (0, 0, .error "AssertionError: polling_interval >= 0") :=
  C8_negative_interval_fails_fast (fun s : String => s)
    (fun _ => QueryOutcome.connFailed) (.str "estimate-id") (-1) 5 (by norm_num)

/-- Claim C6: a query answered by a length-0 response frame and a query whose
connection fails both yield the same absent (`None`, "not yet complete")
result; against a server that always answers with length-0 payload, the query
observes "pending" on the asynchronous path (one round trip returning `None`)
and on every round trip of the synchronous path (the loop is still pending
after any number of iterations). -/
theorem C6_zero_length_and_failure_pending {R : Type} (parse : String → R)
    (request_id : String) (payload : String) (polling_interval : Int) (fuel : Nat) :
    send_query_server parse (.str request_id) (QueryOutcome.frame 0 payload) = .ok none ∧
    send_query_server parse (.str request_id) QueryOutcome.connFailed = .ok none ∧
    retrieve_estimate parse (fun _ => QueryOutcome.frame 0 payload) (.str request_id)
      false polling_interval fuel = (1, 0, .ok none) ∧
    retrieve_sync_fuel parse (fun _ => QueryOutcome.frame 0 payload) (.str request_id)
      0 0 fuel = (fuel, 0, .ok none) := by
  refine ⟨rfl, rfl, ?_, retrieve_sync_fuel_pending parse request_id payload fuel 0⟩
  simp [retrieve_estimate, send_query_server, PyValue.encode_bytes]

/-- Claim C5: under `assert polling_interval >= 0`, each synchronous loop
iteration sleeps `polling_interval` seconds (the sleep is skipped exactly when
the interval is 0) and then issues one query, and the loop returns the first
non-absent response after exactly `k + 1` round trips when the first `k`
queries answered pending; with `polling_interval = 0` and a server answering
pending then non-pending, this gives exactly 2 round trips. -/
theorem C5_sync_loop_first_response {R : Type} (parse : String → R)
    (server : Nat → QueryOutcome) (request_id : PyValue) (r : R)
    (k fuel : Nat) (polling_interval : Int)
    (hnonneg : 0 ≤ polling_interval)
    (hpend : ∀ i, i < k → send_query_server parse request_id (server i) = .ok none)
    (hresp : send_query_server parse request_id (server k) = .ok (some r))
    (hfuel : k < fuel) :
    retrieve_estimate parse server request_id true polling_interval fuel =
      (k + 1, ((k : Int) + 1) * sleepFor polling_interval, .ok (some r)) ∧
    (sleepFor polling_interval = 0 ↔ polling_interval = 0) := by
  constructor
  · have hloop := retrieve_sync_fuel_first_some parse server request_id polling_interval
      r k 0 fuel (by simpa using hpend) (by simpa using hresp) hfuel
    rw [retrieve_estimate, if_neg (by simp), if_neg (by omega)]
    exact hloop
  · unfold sleepFor
    constructor
    · intro h
      by_cases hp : 0 < polling_interval
      · rw [if_pos hp] at h; omega
      · omega
    · intro h
      simp [h]

/-- A server that answers pending on its first query and a decodable result on
its second, used to witness C5. -/
def c5_server : Nat → QueryOutcome := fun n =>
  if n = 0 then QueryOutcome.frame 0 "" else QueryOutcome.frame 6 "result"

/-- Witness for C5: `polling_interval = 0`, pending on the first query,
non-pending on the second: exactly 2 round trips, no sleeping. -/
theorem C5_witness :
    retrieve_estimate (fun s : String => s) c5_server (.str "estimate-id") true 0 2 =
      (2, 0, .ok (some "result")) ∧ (sleepFor 0 = 0 ↔ (0 : Int) = 0) := by
  have h := C5_sync_loop_first_response (fun s : String => s) c5_server
    (.str "estimate-id") "result" 1 2 0 (by norm_num)
    (fun i hi => by interval_cases i; rfl) (by rfl) (by norm_num)
  simpa [sleepFor] using h

/-- Claim C4: `Request.json` writes `self._id` into all three fields of the
dumped dictionary, and `Request.from_json` passes the looked-up address and
port values as the constructor's `connection_options` and `client` arguments,
where reading `.server_address` off a string raises `AttributeError`.  The
round trip therefore reconstructs nothing at all, rather than a handle with
equal id, server address and server port. -/
theorem C4_json_roundtrip_broken :
    Request.json_dict
        { _id := .str "estimate-id", _server_address := "localhost", _server_port := 8000 } =
      [("id", .str "estimate-id"), ("server_address", .str "estimate-id"),
        ("server_port", .str "estimate-id")] ∧
    Request.from_json_dict (Request.json_dict
        { _id := .str "estimate-id", _server_address := "localhost", _server_port := 8000 }) =
      .error "AttributeError: server_address" := by
  exact ⟨rfl, rfl⟩

/-- Claim C3 counterexample: the claim says a Request handle exists only after
a submission response carrying a request id was received, but on a transport
failure `request_estimate` still constructs and returns a handle — one whose
stored id is `None`. -/
theorem C3_counterexample :
    request_estimate_submit .connFailed
        { server_address := "localhost", server_port := 8000 } =
      .ok { _id := .pynone, _server_address := "localhost", _server_port := 8000 } := rfl

/-- Claim C3 (amended): on a transport failure the submission yields an absent
(`None`) request id, and `request_estimate` returns a handle carrying that
absent id; such a handle is not usable for querying (a query round trip with a
`None` id either observes a failed connection, yielding the absent result, or
raises `AttributeError` when encoding the id — it can never produce a server
response).  A handle carrying a request id string arises exactly from a
submission response carrying that id. -/
theorem C3_failed_submission_handle {R : Type} (parse : String → R)
    (co : PropertyEstimatorConnectionOptions) (request_id : String)
    (length : Nat) (payload : String) :
    send_calculations_to_server .connFailed = .pynone ∧
    request_estimate_submit .connFailed co =
      .ok { _id := .pynone, _server_address := co.server_address,
            _server_port := co.server_port } ∧
    send_query_server parse .pynone QueryOutcome.connFailed = .ok none ∧
    send_query_server parse .pynone (QueryOutcome.frame length payload) =
      .error "AttributeError: encode" ∧
    request_estimate_submit (.response request_id) co =
      .ok { _id := .str request_id, _server_address := co.server_address,
            _server_port := co.server_port } :=
  ⟨rfl, rfl, rfl, rfl, rfl⟩

/-- With an empty `allowed_calculation_layers` list the whole batch loop never
touches the map. -/
theorem assembleBatch_nil_layers (registered : String → Bool)
    (provider : String → String → Option WorkflowSchema) (valid : WorkflowSchema → Bool)
    (allow : Bool) :
    ∀ (batch : List String) (tm tm1 : TypeMap),
      assembleBatch registered provider valid allow [] tm batch = .ok tm1 → tm1 = tm := by
  intro batch
  induction batch with
  | nil =>
    intro tm tm1 h
    simp only [assembleBatch, Except.ok.injEq] at h
    exact h.symm
  | cons t rest ih =>
    intro tm tm1 h
    simp only [assembleBatch, assembleLayers] at h
    cases hr : registered t with
    | false => rw [hr] at h; simp at h
    | true =>
      rw [hr] at h
      simp only [Bool.true_eq_false, if_false] at h
      by_cases hp : (alookup tm t).isSome = true
      · rw [if_pos hp] at h
        exact ih tm tm1 h
      · rw [if_neg hp] at h
        exact ih tm tm1 h

/-- Claim C2 (amended): for a property type with no pre-existing
`workflow_schemas` entry, after a successful assembly pass the per-type map
has an entry for exactly the allowed layers, each holding that layer's default:
a workflow configuration exactly for the layers whose default is non-absent,
and a stored `None` (an entry that exists but holds the absent marker) for the
layers whose default is absent. -/
theorem C2_fresh_type_layer_entries (registered : String → Bool)
    (provider : String → String → Option WorkflowSchema) (valid : WorkflowSchema → Bool)
    (allow : Bool) (layers : List String) :
    ∀ (batch : List String) (tm tm1 : TypeMap) (t l : String),
      alookup tm t = none → t ∈ batch →
      assembleBatch registered provider valid allow layers tm batch = .ok tm1 →
      alookup2 tm1 t l = if l ∈ layers then some (provider t l) else none := by
  intro batch
  induction batch with
  | nil =>
    intro tm tm1 t l hfresh hmem hok
    cases hmem
  | cons t0 rest ih =>
    intro tm tm1 t l hfresh hmem hok
    simp only [assembleBatch] at hok
    cases hr : registered t0 with
    | false => rw [hr] at hok; simp at hok
    | true =>
      rw [hr] at hok
      simp only [Bool.true_eq_false, if_false] at hok
      by_cases hp : (alookup tm t0).isSome = true
      · rw [if_pos hp] at hok
        have hne : t ≠ t0 := by
          intro hc
          subst hc
          rw [hfresh] at hp
          simp at hp
        have hmem2 : t ∈ rest := by
          rcases List.mem_cons.mp hmem with hc | hc
          · exact absurd hc hne
          · exact hc
        exact ih tm tm1 t l hfresh hmem2 hok
      · rw [if_neg hp] at hok
        cases hl : assembleLayers (provider t0) valid allow t0 tm layers with
        | error e2 => rw [hl] at hok; cases hok
        | ok tm2 =>
          rw [hl] at hok
          by_cases heq : t = t0
          · subst heq
            cases layers with
            | nil =>
              have htm2 : tm2 = tm := by
                simp only [assembleLayers, Except.ok.injEq] at hl
                exact hl.symm
              have htm1 : tm1 = tm2 :=
                assembleBatch_nil_layers registered provider valid allow rest tm2 tm1 hok
              rw [htm1, htm2]
              simp [alookup2, hfresh, alookup]
            | cons l0 lrest =>
              have hinv : innerInv (provider t) ((alookup tm t).getD []) := by
                rw [hfresh]
                intro l2
                left
                rfl
              have hchar := assembleLayers_char (provider t) valid allow t (l0 :: lrest)
                tm tm2 hinv hl
              have hsome : (alookup tm2 t).isSome = true :=
                assembleLayers_isSome (provider t) valid allow t (l0 :: lrest) tm tm2 hl
                  (Or.inr (by simp))
              obtain ⟨e, he⟩ := Option.isSome_iff_exists.mp hsome
              have hpres := assembleBatch_preserves registered provider valid allow
                (l0 :: lrest) rest tm2 tm1 t e he hok
              have hstay : alookup2 tm1 t l = alookup2 tm2 t l := by
                unfold alookup2
                rw [hpres, he]
              rw [hstay, hchar l]
              by_cases hin : l ∈ l0 :: lrest
              · rw [if_pos hin, if_pos hin]
              · rw [if_neg hin, if_neg hin]
                unfold alookup2
                rw [hfresh]
                rfl
          · have hfresh2 : alookup tm2 t = none := by
              rw [assembleLayers_lookup_ne (provider t0) valid allow t0 t heq layers tm tm2 hl]
              exact hfresh
            have hmem2 : t ∈ rest := by
              rcases List.mem_cons.mp hmem with hc | hc
              · exact absurd hc heq
              · exact hc
            exact ih tm2 tm1 t l hfresh2 hmem2 hok

/-- Claim C2 counterexample: assembling a fresh type over one allowed layer
whose default workflow is absent stores a `None` entry under
`workflow_schemas[type][layer]` — an entry for that layer DOES exist (the
lookup answers `some none`), contradicting "no entry exists under
workflow_schemas[type] for a layer whose default is absent". -/
theorem C2_counterexample :
    assembleBatch (fun _ => true) (fun _ _ => none) (fun _ => true) true
        ["SurrogateLayer"] [] ["Density"] =
      .ok [("Density", [("SurrogateLayer", none)])] ∧
    alookup2 [("Density", [("SurrogateLayer", (none : Option WorkflowSchema))])]
      "Density" "SurrogateLayer" = some none :=
  ⟨rfl, rfl⟩

/-- Witness for C2's amended theorem at a concrete fresh type and layer. -/
theorem C2_witness :
    alookup2 [("Density", [("SurrogateLayer", (none : Option WorkflowSchema))])]
      "Density" "SurrogateLayer" = some none := by
  have h := C2_fresh_type_layer_entries (fun _ => true) (fun _ _ => none) (fun _ => true)
    true ["SurrogateLayer"] ["Density"] [] [("Density", [("SurrogateLayer", none)])]
    "Density" "SurrogateLayer" rfl (by simp) rfl
  simpa using h

/-- The default workflow of the C1 failing input: one protocol step whose
merge flag defaults to `True`. -/
def c1_workflow : WorkflowSchema :=
  { protocols := [("build_solvated_system", { inputs := [(".allow_merging", true)] })] }

/-- The estimation options of the C1 failing input:
`allow_protocol_merging = False`, one allowed layer, nothing pre-populated. -/
def c1_options : PropertyEstimatorOptions :=
  { allowed_calculation_layers := ["SimulationLayer"]
    workflow_schemas := []
    relative_uncertainty_tolerance := 1.0
    allow_protocol_merging := false
    gradient_properties := [] }

/-- Claim C1, evaluated at its failing input: with
`allow_protocol_merging = False` the workflow configuration recorded in
`workflow_schemas` still carries its default merge flag `True`.  The override
of lines 557-558 is applied to a second, freshly fetched copy of the default
workflow (line 546), which is then discarded; the stored entry of lines
543-544 is never touched — even though `applyMergeOverride` would have forced
the flag to `False` had it been applied to the stored copy. -/
theorem C1_merge_override_lost :
    request_estimate_assemble (fun _ => true) (fun _ _ => some c1_workflow)
        (fun _ => true) c1_options ["Density"] =
      .ok { c1_options with
            workflow_schemas := [("Density", [("SimulationLayer", some c1_workflow)])] } ∧
    alookup2 [("Density", [("SimulationLayer", some c1_workflow)])]
      "Density" "SimulationLayer" = some (some c1_workflow) ∧
    alookup c1_workflow.protocols "build_solvated_system" =
      some { inputs := [(".allow_merging", true)] } ∧
    applyMergeOverride false c1_workflow =
      { protocols := [("build_solvated_system", { inputs := [(".allow_merging", false)] })] } :=
  ⟨rfl, rfl, rfl, rfl⟩

/-- Claim C7: the assembly pass skips every property type that already has a
`workflow_schemas` entry, so a caller-populated entry survives the pass
unchanged, and running the same flattened batch a second time on the assembled
options is a no-op returning the options object unchanged. -/
theorem C7_skip_if_present_and_idempotent (registered : String → Bool)
    (provider : String → String → Option WorkflowSchema) (valid : WorkflowSchema → Bool)
    (options options1 : PropertyEstimatorOptions) (batch : List String)
    (hok : request_estimate_assemble registered provider valid options batch = .ok options1) :
    (∀ (t0 : String) (e : LayerMap), alookup options.workflow_schemas t0 = some e →
      alookup options1.workflow_schemas t0 = some e) ∧
    request_estimate_assemble registered provider valid options1 batch = .ok options1 := by
  unfold request_estimate_assemble at hok ⊢
  cases hb : assembleBatch registered provider valid options.allow_protocol_merging
      options.allowed_calculation_layers options.workflow_schemas batch with
  | error e2 => rw [hb] at hok; cases hok
  | ok tm =>
    rw [hb] at hok
    simp only [Except.ok.injEq] at hok
    subst hok
    constructor
    · intro t0 e hpre
      exact assembleBatch_preserves registered provider valid
        options.allow_protocol_merging options.allowed_calculation_layers batch
        options.workflow_schemas tm t0 e hpre hb
    · have hidem := assembleBatch_idem registered provider valid
        options.allow_protocol_merging options.allowed_calculation_layers batch
        options.workflow_schemas tm hb
      simp only [hidem]

/-- Default workflow used by the C7 witness. -/
def c7_workflow : WorkflowSchema :=
  { protocols := [("run_simulation", { inputs := [(".allow_merging", true)] })] }

/-- C7 witness starting options: the caller pre-populated an entry for the
`ExcessMolarVolume` type. -/
def c7_options0 : PropertyEstimatorOptions :=
  { allowed_calculation_layers := ["SimulationLayer"]
    workflow_schemas := [("ExcessMolarVolume", [("SimulationLayer", some c7_workflow)])]
    relative_uncertainty_tolerance := 1.0
    allow_protocol_merging := true
    gradient_properties := [] }

/-- C7 witness assembled options: the fresh `Density` entry was appended and
the caller-populated `ExcessMolarVolume` entry is untouched. -/
def c7_options1 : PropertyEstimatorOptions :=
  { c7_options0 with workflow_schemas :=
      [("ExcessMolarVolume", [("SimulationLayer", some c7_workflow)]),
        ("Density", [("SimulationLayer", some c7_workflow)])] }

/-- Witness for C7 on a concrete batch: the caller-populated entry survives
and a second pass over the assembled options is the identity. -/
theorem C7_witness :
    alookup c7_options1.workflow_schemas "ExcessMolarVolume" =
      some [("SimulationLayer", some c7_workflow)] ∧
    request_estimate_assemble (fun _ => true) (fun _ _ => some c7_workflow)
      (fun _ => true) c7_options1 ["Density", "ExcessMolarVolume"] = .ok c7_options1 := by
  have h := C7_skip_if_present_and_idempotent (fun _ => true) (fun _ _ => some c7_workflow)
    (fun _ => true) c7_options0 c7_options1 ["Density", "ExcessMolarVolume"] rfl
  exact ⟨h.1 "ExcessMolarVolume" [("SimulationLayer", some c7_workflow)] rfl, h.2⟩
